import Mathlib

/-!
Verification development for the dashboard layout / persistence core.

The definitions below are a shallow embedding of the Rust sources:
  * `Layout`  embeds `src-tauri/src/layout.rs` (grid engine);
  * `Persist` embeds `src-tauri/src/persistence/{schemas,compatibility,migrations,recovery}.rs`.

Machine integers (`u8`, `u32`, `u64`) are modelled as `Nat`; additions that the
Rust code performs on fixed-width integers are modelled with an explicit
wrap-around (`% 2^8`, `% 2^32`), matching the release-profile (wrapping)
semantics of Rust integer overflow.  JSON values (`serde_json::Value`) are
modelled by the inductive `Layout.Json`, with objects as association lists
(map ordering is abstracted; all statements about objects go through key
lookup).  Number payloads are modelled as `Int`; no embedded function ever
computes with them.  The random UUID used for generated widget ids is passed
in as an explicit `fresh : String` parameter.
-/

/-- `serde_json::Value`, with objects as association lists. -/
inductive JsonValue where
  | null : JsonValue
  | bool (b : Bool) : JsonValue
  | num (n : Int) : JsonValue
  | str (s : String) : JsonValue
  | arr (elems : List JsonValue) : JsonValue
  | obj (fields : List (String × JsonValue)) : JsonValue

namespace Layout

/-- Wrapping 8-bit addition, the release-mode semantics of `u8 + u8` in Rust. -/
def u8add (a b : Nat) : Nat := (a + b) % 256

/-- Key lookup in a JSON object (first matching key). -/
def jlookup (m : List (String × JsonValue)) (k : String) : Option JsonValue :=
  (m.find? (fun p => p.1 == k)).map (fun p => p.2)

/-- `Map::insert`: replace the value of an existing key in place, else add the key. -/
def mapInsert : List (String × JsonValue) → String → JsonValue → List (String × JsonValue)
  | [], k, v => [(k, v)]
  | (k0, v0) :: rest, k, v =>
      if k0 = k then (k0, v) :: rest else (k0, v0) :: mapInsert rest k v

/-- The `for (key, value) in overrides { base.insert(key, value) }` loop. -/
def insertAll (base : List (String × JsonValue)) : List (String × JsonValue) → List (String × JsonValue)
  | [] => base
  | (k, v) :: rest => insertAll (mapInsert base k v) rest

/-- `GridConfig` from layout.rs (`columns`, `rows` are `u8`). -/
structure GridConfig where
  columns : Nat
  rows : Nat

/-- `WidgetLayout` from layout.rs (coordinates and sizes are `u8`). -/
structure WidgetLayout where
  id : String
  widget_type : String
  x : Nat
  y : Nat
  width : Nat
  height : Nat
  locked : Bool
  settings : Option JsonValue

/-- `LayoutState` from layout.rs. -/
structure LayoutState where
  grid : GridConfig
  widgets : List WidgetLayout
  version : Nat

/-- `WidgetSlot` from layout.rs. -/
structure WidgetSlot where
  id : Option String
  x : Nat
  y : Nat
  width : Nat
  height : Nat
  locked : Option Bool
  settings : Option JsonValue

/-- `LayoutOperation` from layout.rs. -/
inductive LayoutOperation where
  | addWidget (widget_type : String) (layout : WidgetSlot)
  | moveWidget (id : String) (x y : Nat)
  | resizeWidget (id : String) (width height : Nat) (x y : Option Nat)
  | removeWidget (id : String)
  | setWidgetLock (id : String) (locked : Bool)
  | setWidgetSettings (id : String) (settings : JsonValue)

/-- `WidgetConstraints` from layout.rs. -/
structure WidgetConstraints where
  min_width : Nat
  min_height : Nat
  max_width : Nat
  max_height : Nat

/-- `LayoutError` from layout.rs; payloads carry the formatted message / id. -/
inductive LayoutError where
  | unknownWidget (msg : String)
  | unknownId (msg : String)
  | collision (msg : String)
  | outOfBounds (msg : String)
  | invalidSize (msg : String)
  | locked (msg : String)

/-- The field list of the `json!` literal in `default_settings_for("clock")`. -/
def clockDefaultFields : List (String × JsonValue) :=
  [("timeFormat", .str "12h"),
   ("showSeconds", .bool true),
   ("dateFormat", .str "long"),
   ("layoutStyle", .str "stacked"),
   ("alignment", .str "center"),
   ("fontSizeMode", .str "auto"),
   ("timezone", .str "system"),
   ("updateFrequency", .str "second"),
   ("clickBehavior", .str "open-system-clock"),
   ("minGridSize", .obj [("width", .num 3), ("height", .num 2)])]

/-- `default_settings_for` from layout.rs. -/
def default_settings_for (widget_type : String) : Option JsonValue :=
  if widget_type = "clock" then some (.obj clockDefaultFields) else none

/-- `merge_settings` from layout.rs (match arms in source order). -/
def merge_settings : JsonValue → Option JsonValue → JsonValue
  | .obj base, some (.obj overrides) => .obj (insertAll base overrides)
  | _, some (.obj overrides) => .obj (insertAll [] overrides)
  | defaults, some .null => defaults
  | _, some v => v
  | defaults, none => defaults

/-- `apply_widget_defaults` from layout.rs (the `else` branch is a no-op). -/
def apply_widget_defaults (widget : WidgetLayout) : WidgetLayout :=
  match default_settings_for widget.widget_type with
  | some defaults => { widget with settings := some (merge_settings defaults widget.settings) }
  | none => widget

/-- `WidgetRegistry::new()` from layout.rs, as a lookup function. -/
def registryNew : String → Option WidgetConstraints :=
  fun widget_type =>
    if widget_type = "notifications" then some ⟨6, 4, 24, 12⟩
    else if widget_type = "mail" then some ⟨6, 4, 24, 12⟩
    else if widget_type = "clock" then some ⟨3, 2, 12, 8⟩
    else none

/-- `CollisionDetector` from layout.rs. -/
structure CollisionDetector where
  columns : Nat
  rows : Nat

/-- `CollisionDetector::within_bounds` (checks in source order; sums wrap as `u8`). -/
def within_bounds (cd : CollisionDetector) (layout : WidgetLayout)
    (constraints : WidgetConstraints) : Except LayoutError Unit :=
  if layout.width < constraints.min_width ∨ layout.height < constraints.min_height then
    .error (.invalidSize (layout.id ++ " is smaller than min size " ++
      toString constraints.min_width ++ "x" ++ toString constraints.min_height))
  else if layout.width > constraints.max_width ∨ layout.height > constraints.max_height then
    .error (.invalidSize (layout.id ++ " exceeds max size " ++
      toString constraints.max_width ++ "x" ++ toString constraints.max_height))
  else if u8add layout.x layout.width > cd.columns ∨ u8add layout.y layout.height > cd.rows then
    .error (.outOfBounds (layout.id ++ " would leave the grid (" ++
      toString layout.width ++ "x" ++ toString layout.height ++ " at " ++
      toString layout.x ++ "," ++ toString layout.y ++ ")"))
  else .ok ()

/-- `CollisionDetector::overlaps` (sums wrap as `u8`). -/
def overlaps (a b : WidgetLayout) : Bool :=
  !(decide (a.x ≥ u8add b.x b.width) || decide (u8add a.x a.width ≤ b.x) ||
    decide (a.y ≥ u8add b.y b.height) || decide (u8add a.y a.height ≤ b.y))

/-- `CollisionDetector::collides`: candidate overlaps some widget with a different id. -/
def collides (_cd : CollisionDetector) (widgets : List WidgetLayout)
    (candidate : WidgetLayout) : Bool :=
  (widgets.filter (fun existing => existing.id != candidate.id)).any
    (fun existing => overlaps existing candidate)

/-- `GridManager` from layout.rs; the registry is its lookup function. -/
structure GridManager where
  grid : GridConfig
  collision : CollisionDetector
  registry : String → Option WidgetConstraints
  widgets : List WidgetLayout
  last_valid : List WidgetLayout
  version : Nat

/-- `DEFAULT_VERSION` from layout.rs. -/
def DEFAULT_VERSION : Nat := 1

/-- `GridManager::new`. -/
def GridManager.new (columns rows : Nat)
    (registry : String → Option WidgetConstraints) : GridManager :=
  { grid := ⟨columns, rows⟩
    collision := ⟨columns, rows⟩
    registry := registry
    widgets := []
    last_valid := []
    version := DEFAULT_VERSION }

/-- `GridManager::state`. -/
def GridManager.state (gm : GridManager) : LayoutState :=
  ⟨gm.grid, gm.widgets, gm.version⟩

/-- `GridManager::validate_with`. -/
def validate_with (gm : GridManager) (univ : List WidgetLayout)
    (layout : WidgetLayout) : Except LayoutError Unit :=
  match gm.registry layout.widget_type with
  | none => .error (.unknownWidget layout.widget_type)
  | some constraints =>
    match within_bounds gm.collision layout constraints with
    | .error e => .error e
    | .ok _ =>
      if collides gm.collision univ layout then .error (.collision layout.id)
      else .ok ()

/-- The accumulation loop of `GridManager::set_widgets`. -/
def setWidgetsGo (gm : GridManager) : List WidgetLayout → List WidgetLayout → List WidgetLayout
  | [], next => next
  | widget :: rest, next =>
    let w := apply_widget_defaults widget
    match validate_with gm next w with
    | .ok _ => setWidgetsGo gm rest (next ++ [w])
    | .error _ => setWidgetsGo gm rest next

/-- `GridManager::set_widgets`. -/
def set_widgets (gm : GridManager) (widgets : List WidgetLayout) : GridManager :=
  let next := setWidgetsGo gm widgets []
  { gm with widgets := next, last_valid := next }

/-- The replace-or-keep loop of `GridManager::upsert_widget` (also returns the
`replaced` flag). -/
def upsertList (widget : WidgetLayout) : List WidgetLayout → List WidgetLayout × Bool
  | [] => ([], false)
  | existing :: rest =>
    let p := upsertList widget rest
    if existing.id == widget.id then (widget :: p.1, true) else (existing :: p.1, p.2)

/-- `GridManager::upsert_widget`; errors occur before any mutation. -/
def upsert_widget (gm : GridManager) (widget0 : WidgetLayout) :
    Except LayoutError (LayoutState × GridManager) :=
  let widget := apply_widget_defaults widget0
  match validate_with gm gm.widgets widget with
  | .error e => .error e
  | .ok _ =>
    let p := upsertList widget gm.widgets
    let next := if p.2 then p.1 else p.1 ++ [widget]
    let gm' := { gm with widgets := next, last_valid := next }
    .ok (gm'.state, gm')

/-- `GridManager::remove_widget` (`retain` happens before the length check). -/
def remove_widget (gm : GridManager) (id : String) :
    Except LayoutError LayoutState × GridManager :=
  let next := gm.widgets.filter (fun w => w.id != id)
  if next.length = gm.widgets.length then
    (.error (.unknownId id), { gm with widgets := next })
  else
    let gm' := { gm with widgets := next, last_valid := next }
    (.ok gm'.state, gm')

/-- The widget built by the `AddWidget` arm of `apply_operation`; `fresh`
models the random UUID suffix used when the slot carries no id. -/
def add_candidate (widget_type : String) (slot : WidgetSlot) (fresh : String) : WidgetLayout :=
  { id := slot.id.getD (widget_type ++ "-" ++ fresh)
    widget_type := widget_type
    x := slot.x
    y := slot.y
    width := slot.width
    height := slot.height
    locked := slot.locked.getD false
    settings := match slot.settings with
                | some v => some v
                | none => default_settings_for widget_type }

/-- The snapshot-restoring `match result` at the end of `apply_operation`. -/
def finishOp (gm : GridManager) (snapshot : List WidgetLayout)
    (r : Except LayoutError (LayoutState × GridManager)) :
    Except LayoutError LayoutState × GridManager :=
  match r with
  | .ok (st, gm') => (.ok st, gm')
  | .error e => (.error e, { gm with widgets := snapshot })

/-- `GridManager::apply_operation`.  The `?`-propagated `UnknownId` and the
early `Locked` returns leave the manager untouched (exactly as in the source,
where they skip the snapshot-restore but nothing has been mutated yet). -/
def apply_operation (gm : GridManager) (operation : LayoutOperation) (fresh : String) :
    Except LayoutError LayoutState × GridManager :=
  let snapshot := gm.widgets
  match operation with
  | .addWidget widget_type slot =>
      finishOp gm snapshot (upsert_widget gm (add_candidate widget_type slot fresh))
  | .moveWidget id x y =>
      match gm.widgets.find? (fun w => w.id == id) with
      | none => (.error (.unknownId id), gm)
      | some widget =>
        if widget.locked then (.error (.locked id), gm)
        else finishOp gm snapshot (upsert_widget gm { widget with x := x, y := y })
  | .resizeWidget id width height x y =>
      match gm.widgets.find? (fun w => w.id == id) with
      | none => (.error (.unknownId id), gm)
      | some widget =>
        if widget.locked then (.error (.locked id), gm)
        else
          let w1 := { widget with width := width, height := height }
          let w2 := match x with | some nx => { w1 with x := nx } | none => w1
          let w3 := match y with | some ny => { w2 with y := ny } | none => w2
          finishOp gm snapshot (upsert_widget gm w3)
  | .removeWidget id =>
      match remove_widget gm id with
      | (.ok st, gm') => (.ok st, gm')
      | (.error e, gm') => (.error e, { gm' with widgets := snapshot })
  | .setWidgetLock id locked =>
      match gm.widgets.find? (fun w => w.id == id) with
      | none => (.error (.unknownId id), gm)
      | some widget =>
          finishOp gm snapshot (upsert_widget gm { widget with locked := locked })
  | .setWidgetSettings id settings =>
      match gm.widgets.find? (fun w => w.id == id) with
      | none => (.error (.unknownId id), gm)
      | some widget =>
          finishOp gm snapshot (upsert_widget gm { widget with settings := some settings })

/-- `GridManager::replace_state`. -/
def replace_state (gm : GridManager) (st : LayoutState) : GridManager :=
  set_widgets
    { gm with grid := st.grid
              collision := ⟨st.grid.columns, st.grid.rows⟩
              registry := registryNew
              version := st.version }
    st.widgets

end Layout

namespace Persist

/-- Wrapping 32-bit addition, the release-mode semantics of `u32 + u32` in Rust. -/
def u32add (a b : Nat) : Nat := (a + b) % 4294967296

/-- `CURRENT_VERSION` from schemas.rs. -/
def CURRENT_VERSION : Nat := 1

/-- `Theme` from schemas.rs. -/
inductive Theme where
  | light
  | dark
  | auto
deriving DecidableEq

/-- `WidgetScale` from schemas.rs. -/
inductive WidgetScale where
  | small
  | medium
  | large
deriving DecidableEq

/-- `WindowPosition` from schemas.rs. -/
structure WindowPosition where
  x : Int
  y : Int
  width : Nat
  height : Nat

/-- `AlertRule` from schemas.rs; the `f64` threshold is carried opaquely. -/
structure AlertRule where
  id : String
  metric : String
  operator : String
  threshold : Float
  enabled : Bool

/-- `AppSettingsV1` from schemas.rs. -/
structure AppSettingsV1 where
  is_fullscreen : Bool
  selected_monitor : Nat
  always_on_top : Bool
  window_position : Option WindowPosition

/-- `GridConfig` from schemas.rs (`columns`, `rows` are `u32`). -/
structure GridConfig where
  columns : Nat
  rows : Nat

/-- `WidgetLayout` from schemas.rs (coordinates and sizes are `u32`). -/
structure WidgetLayout where
  id : String
  widget_type : String
  x : Nat
  y : Nat
  width : Nat
  height : Nat
  locked : Bool
  settings : Option JsonValue

/-- `LayoutStateV1` from schemas.rs. -/
structure LayoutStateV1 where
  grid : GridConfig
  widgets : List WidgetLayout

/-- `PreferencesV1` from schemas.rs; the hash maps are association lists. -/
structure PreferencesV1 where
  theme : Theme
  power_saving : Bool
  refresh_interval : Nat
  widget_visibility : List (String × Bool)
  widget_scale : List (String × WidgetScale)
  widget_order : List String
  alert_rules : List AlertRule
  notes : String

/-- `PersistedState` from schemas.rs. -/
structure PersistedState where
  version : Nat
  app_settings : AppSettingsV1
  layout : LayoutStateV1
  preferences : PreferencesV1

/-- The `Default` impls of schemas.rs, combined. -/
def PersistedState.default : PersistedState :=
  { version := CURRENT_VERSION
    app_settings := ⟨false, 0, false, none⟩
    layout := ⟨⟨24, 12⟩, []⟩
    preferences := ⟨.auto, false, 8000, [], [], [], [], ""⟩ }

/-- One entry of the `Vec<String>` warning report built by
`PersistedState::validate` (and the reset report of recovery.rs); each
constructor stands for one of the formatted warning strings. -/
inductive Warning where
  | versionNewer (v cur : Nat)
  | zeroGrid
  | largeGrid (columns rows : Nat)
  | outsideBounds (id widget_type : String)
  | zeroSize (id widget_type : String)
  | duplicateId (id : String)
  | refreshTooLow
  | refreshTooHigh
  | noPreviousState
deriving DecidableEq

/-- The duplicate-id pass of `validate` (a fold over a seen-id set). -/
def dupIdWarnings : List String → List WidgetLayout → List Warning
  | _, [] => []
  | seen, w :: ws =>
    if w.id ∈ seen then .duplicateId w.id :: dupIdWarnings seen ws
    else dupIdWarnings (w.id :: seen) ws

/-- `PersistedState::validate` (warnings in source order; `u32` sums wrap). -/
def PersistedState.validate (s : PersistedState) : List Warning :=
  (if s.version > CURRENT_VERSION then [.versionNewer s.version CURRENT_VERSION] else [])
  ++ (if s.layout.grid.columns = 0 ∨ s.layout.grid.rows = 0 then [.zeroGrid] else [])
  ++ (if s.layout.grid.columns > 100 ∨ s.layout.grid.rows > 100 then
        [.largeGrid s.layout.grid.columns s.layout.grid.rows] else [])
  ++ s.layout.widgets.flatMap (fun w =>
       (if u32add w.x w.width > s.layout.grid.columns ∨
           u32add w.y w.height > s.layout.grid.rows then
          [.outsideBounds w.id w.widget_type] else [])
       ++ (if w.width = 0 ∨ w.height = 0 then [.zeroSize w.id w.widget_type] else []))
  ++ dupIdWarnings [] s.layout.widgets
  ++ (if s.preferences.refresh_interval < 1000 then [.refreshTooLow] else [])
  ++ (if s.preferences.refresh_interval > 60000 then [.refreshTooHigh] else [])

/-- `Ord::clamp` on unsigned integers (the `min ≤ max` assertion holds at
every call site in the source). -/
def clampNat (v lo hi : Nat) : Nat := if v < lo then lo else if v > hi then hi else v

/-- The dedup `retain` of `sanitize`: keep a widget iff its id was not seen yet. -/
def retainFirstById : List String → List WidgetLayout → List WidgetLayout
  | _, [] => []
  | seen, w :: ws =>
    if w.id ∈ seen then retainFirstById seen ws
    else w :: retainFirstById (w.id :: seen) ws

/-- The bounds/size `retain` predicate of `sanitize` (`u32` sums wrap). -/
def keepWidget (columns rows : Nat) (w : WidgetLayout) : Bool :=
  decide (0 < w.width) && decide (0 < w.height) &&
  decide (u32add w.x w.width ≤ columns) && decide (u32add w.y w.height ≤ rows)

/-- `PersistedState::sanitize` (grid clamp, bounds retain, id dedup, refresh clamp). -/
def PersistedState.sanitize (s : PersistedState) : PersistedState :=
  let columns := clampNat s.layout.grid.columns 6 100
  let rows := clampNat s.layout.grid.rows 4 100
  let ws1 := s.layout.widgets.filter (keepWidget columns rows)
  let ws2 := retainFirstById [] ws1
  { s with
    layout := ⟨⟨columns, rows⟩, ws2⟩
    preferences :=
      { s.preferences with refresh_interval := clampNat s.preferences.refresh_interval 1000 60000 } }

/-- `CompatibilityStatus` from compatibility.rs. -/
inductive CompatibilityStatus where
  | fullyCompatible
  | migrationAvailable
  | migrationRisky
  | futureVersion
  | incompatible
deriving DecidableEq

/-- `MIN_SUPPORTED_VERSION` from compatibility.rs. -/
def MIN_SUPPORTED_VERSION : Nat := 1

/-- `check_compatibility` from compatibility.rs, generalized over the current
version (the source reads the constant `CURRENT_VERSION`); the range match on
the difference is in source order. -/
def check_compatibility_gen (current state_version : Nat) : CompatibilityStatus :=
  if state_version > current then .futureVersion
  else
    let version_diff := current - state_version
    if version_diff = 0 then .fullyCompatible
    else if version_diff ≤ 2 then .migrationAvailable
    else if version_diff ≤ 5 then .migrationRisky
    else .incompatible

/-- `check_compatibility` from compatibility.rs, at the source's `CURRENT_VERSION`. -/
def check_compatibility (state_version : Nat) : CompatibilityStatus :=
  check_compatibility_gen CURRENT_VERSION state_version

/-- `apply_migrations` from migrations.rs.  The per-version migration chain of
the source is empty at schema version 1, so the fall-through for
`MigrationRisky` / `MigrationAvailable` just stamps the current version. -/
def apply_migrations (s : PersistedState) : Except String PersistedState :=
  if s.version = CURRENT_VERSION then .ok s
  else
    match check_compatibility s.version with
    | .fullyCompatible => .ok s
    | .futureVersion => .ok s
    | .incompatible =>
        .error ("State version " ++ toString s.version ++
          " is too old to migrate (minimum supported: " ++
          toString MIN_SUPPORTED_VERSION ++ ")")
    | .migrationRisky => .ok { s with version := CURRENT_VERSION }
    | .migrationAvailable => .ok { s with version := CURRENT_VERSION }

/-- `RecoveryMode` from recovery.rs. -/
inductive RecoveryMode where
  | clean
  | sanitizedMode
  | partialRecovery
  | reset
deriving DecidableEq

/-- `RecoveryResult` from recovery.rs (the report entries are `Warning`s). -/
structure RecoveryResult where
  state : PersistedState
  mode : RecoveryMode
  report : List Warning

/-- `recover_state` from recovery.rs. -/
def recover_state : Option PersistedState → RecoveryResult
  | none => ⟨PersistedState.default, .reset, [.noPreviousState]⟩
  | some s =>
    let warnings := s.validate
    if warnings = [] then ⟨s, .clean, []⟩
    else
      let sanitized := s.sanitize
      let post_warnings := sanitized.validate
      if post_warnings = [] then ⟨sanitized, .sanitizedMode, warnings⟩
      else ⟨sanitized, .partialRecovery, post_warnings⟩

end Persist

namespace Layout

/-- First widget of the duplicate-id pair fed to `replace_state`. -/
def waC1 : WidgetLayout := ⟨"a", "clock", 0, 0, 3, 2, false, none⟩

/-- Second widget of the duplicate-id pair (same id, overlapping rectangle). -/
def wbC1 : WidgetLayout := ⟨"a", "clock", 1, 0, 3, 2, false, none⟩

/-- A `GridManager` reached from the empty 24×12 grid by one `replace_state`
carrying two valid-looking widgets that share the id "a". -/
def gmC1 : GridManager :=
  replace_state (GridManager.new 24 12 registryNew) ⟨⟨24, 12⟩, [waC1, wbC1], 1⟩

/-- A locked clock widget used by concrete instances. -/
def wLock : WidgetLayout := ⟨"a", "clock", 0, 0, 3, 2, true, none⟩

/-- A manager holding the single locked widget `wLock` on a 24×12 grid. -/
def gmLock : GridManager :=
  { grid := ⟨24, 12⟩
    collision := ⟨24, 12⟩
    registry := registryNew
    widgets := [wLock]
    last_valid := [wLock]
    version := 1 }

/-- An `AddWidget` slot reusing the id "a" of `wLock` with a valid geometry. -/
def slotUpsert : WidgetSlot := ⟨some "a", 0, 0, 4, 2, none, none⟩

/-- An `AddWidget` slot with id "c1" and no caller settings. -/
def slotOmit : WidgetSlot := ⟨some "c1", 0, 0, 3, 2, none, none⟩

end Layout

namespace Persist

/-- A loaded state whose grid is too large (columns 1000): one warning, fully
repaired by sanitization. -/
def sBad : PersistedState :=
  { PersistedState.default with layout := ⟨⟨1000, 12⟩, []⟩ }

/-- A widget whose `u32` sum `x + width` wraps: `x = 2^32 - 1`, `width = 4`. -/
def wOverflow : WidgetLayout := ⟨"w", "clock", 4294967295, 0, 4, 4, false, none⟩

/-- A loaded state containing only `wOverflow` on the default 24×12 grid. -/
def sOverflow : PersistedState :=
  { PersistedState.default with layout := ⟨⟨24, 12⟩, [wOverflow]⟩ }

/-- Widgets for the sanitize witness: two sharing the id "k", one zero-width. -/
def wK1 : WidgetLayout := ⟨"k", "clock", 0, 0, 4, 4, false, none⟩

/-- Second widget with the duplicate id "k". -/
def wK2 : WidgetLayout := ⟨"k", "clock", 4, 0, 4, 4, false, none⟩

/-- A zero-width widget, dropped by sanitization. -/
def wZero : WidgetLayout := ⟨"z", "clock", 0, 0, 0, 4, false, none⟩

/-- A state exercising dedup and the zero-size drop of `sanitize`. -/
def sDup : PersistedState :=
  { PersistedState.default with layout := ⟨⟨24, 12⟩, [wK1, wK2, wZero]⟩ }

/-- `PersistedState.default` with on-disk version 0 (one step old). -/
def sV0 : PersistedState := { PersistedState.default with version := 0 }

/-- `PersistedState.default` with on-disk version 11 (from the future). -/
def sV11 : PersistedState := { PersistedState.default with version := 11 }

end Persist

namespace Layout

theorem apply_widget_defaults_id (w : WidgetLayout) :
    (apply_widget_defaults w).id = w.id := by
  unfold apply_widget_defaults
  cases default_settings_for w.widget_type <;> rfl

theorem upsertList_eq (w : WidgetLayout) (l : List WidgetLayout) :
    upsertList w l =
      (l.map (fun e => if e.id = w.id then w else e), l.any (fun e => e.id == w.id)) := by
  induction l with
  | nil => rfl
  | cons a t ih =>
      simp only [upsertList, ih, List.map_cons, List.any_cons]
      by_cases h : a.id = w.id
      · simp [h]
      · simp [h]

theorem find?_id_eq_some_of_nodup (l : List WidgetLayout) (w : WidgetLayout) (i : String)
    (hN : (l.map (fun x => x.id)).Nodup) (hw : w ∈ l) (hid : w.id = i) :
    l.find? (fun x => x.id == i) = some w := by
  induction l with
  | nil => cases hw
  | cons a t ih =>
      simp only [List.map_cons, List.nodup_cons] at hN
      rcases List.mem_cons.mp hw with h | h
      · subst h
        simp [List.find?, hid]
      · have hne : ¬ (a.id == i) = true := by
          intro hbeq
          have : a.id = i := by simpa using hbeq
          exact hN.1 (this ▸ hid ▸ List.mem_map_of_mem (fun x => x.id) h)
        simp only [List.find?, hne]
        exact ih hN.2 h

/-- Claim C1 (code_bug evidence): from the empty 24×12 grid, one
`replace_state` carrying two widgets that share the id "a" yields a reachable
widget set in which the id "a" occurs twice and the two stored widgets'
rectangles overlap in exact integer arithmetic — the grid invariants of the
claim do not hold for all reachable states. -/
theorem gridmanager_invariants_fail_on_duplicate_ids :
    gmC1.widgets.map (fun w => w.id) = ["a", "a"] ∧
    ¬ (gmC1.widgets.map (fun w => w.id)).Nodup ∧
    ∃ w0 w1, gmC1.widgets = [w0, w1] ∧
      w0.x < w1.x + w1.width ∧ w1.x < w0.x + w0.width ∧
      w0.y < w1.y + w1.height ∧ w1.y < w0.y + w0.height := by
  refine ⟨rfl, ?_, ?_⟩
  · intro h
    rw [show gmC1.widgets.map (fun w => w.id) = ["a", "a"] from rfl] at h
    simp at h
  · exact ⟨⟨"a", "clock", 0, 0, 3, 2, false, some (.obj clockDefaultFields)⟩,
      ⟨"a", "clock", 1, 0, 3, 2, false, some (.obj clockDefaultFields)⟩,
      rfl, by decide, by decide, by decide, by decide⟩

/-- On an error result, the snapshot-restoring tail of `apply_operation`
returns a manager whose widget set is the snapshot. -/
theorem finishOp_error_widgets (gm : GridManager)
    (r : Except LayoutError (LayoutState × GridManager)) (e : LayoutError)
    (h : (finishOp gm gm.widgets r).1 = .error e) :
    (finishOp gm gm.widgets r).2.widgets = gm.widgets := by
  cases r with
  | error e' => rfl
  | ok p =>
      cases p with
      | mk st gm' => simp [finishOp] at h

/-- Claim C2: whenever `apply_operation` returns an error, the widget set
after the call equals the widget set before the call — no partial application
is observable. -/
theorem apply_operation_error_leaves_widgets_unchanged
    (gm : GridManager) (op : LayoutOperation) (fresh : String) (e : LayoutError)
    (h : (apply_operation gm op fresh).1 = .error e) :
    (apply_operation gm op fresh).2.widgets = gm.widgets := by
  cases op with
  | addWidget t slot =>
      simp only [apply_operation] at h ⊢
      exact finishOp_error_widgets gm _ e h
  | moveWidget i x y =>
      simp only [apply_operation] at h ⊢
      cases hf : gm.widgets.find? (fun w => w.id == i) with
      | none => rfl
      | some w =>
          rw [hf] at h
          by_cases hl : w.locked
          · simp [hl]
          · simp only [hl, Bool.false_eq_true, not_false_eq_true, if_false] at h ⊢
            exact finishOp_error_widgets gm _ e h
  | resizeWidget i width height x y =>
      simp only [apply_operation] at h ⊢
      cases hf : gm.widgets.find? (fun w => w.id == i) with
      | none => rfl
      | some w =>
          rw [hf] at h
          by_cases hl : w.locked
          · simp [hl]
          · simp only [hl, Bool.false_eq_true, not_false_eq_true, if_false] at h ⊢
            exact finishOp_error_widgets gm _ e h
  | removeWidget i =>
      simp only [apply_operation, remove_widget] at h ⊢
      by_cases hlen : (gm.widgets.filter (fun w => w.id != i)).length = gm.widgets.length
      · simp [hlen]
      · simp [hlen] at h
  | setWidgetLock i locked =>
      simp only [apply_operation] at h ⊢
      cases hf : gm.widgets.find? (fun w => w.id == i) with
      | none => rfl
      | some w =>
          rw [hf] at h
          exact finishOp_error_widgets gm _ e h
  | setWidgetSettings i settings =>
      simp only [apply_operation] at h ⊢
      cases hf : gm.widgets.find? (fun w => w.id == i) with
      | none => rfl
      | some w =>
          rw [hf] at h
          exact finishOp_error_widgets gm _ e h

/-- Claim C9: on a grid whose widget ids are unique (the data-model
invariant), targeting a locked widget's id with `MoveWidget` or
`ResizeWidget` fails with `Locked` and returns the manager — hence every
widget's geometry — unchanged; targeting an id absent from the grid fails
with `UnknownId`, also leaving the manager unchanged. -/
theorem move_resize_locked_and_unknown_id
    (gm : GridManager) (i : String)
    (hN : (gm.widgets.map (fun w => w.id)).Nodup) :
    (∀ w, w ∈ gm.widgets → w.id = i → w.locked = true →
      ∀ (x y width height : Nat) (ox oy : Option Nat) (fresh : String),
        apply_operation gm (.moveWidget i x y) fresh = (.error (.locked i), gm) ∧
        apply_operation gm (.resizeWidget i width height ox oy) fresh =
          (.error (.locked i), gm)) ∧
    ((∀ w, w ∈ gm.widgets → w.id ≠ i) →
      ∀ (x y width height : Nat) (ox oy : Option Nat) (fresh : String),
        apply_operation gm (.moveWidget i x y) fresh = (.error (.unknownId i), gm) ∧
        apply_operation gm (.resizeWidget i width height ox oy) fresh =
          (.error (.unknownId i), gm)) := by
  constructor
  · intro w hw hid hl x y width height ox oy fresh
    have hf : gm.widgets.find? (fun x => x.id == i) = some w :=
      find?_id_eq_some_of_nodup gm.widgets w i hN hw hid
    constructor
    · simp only [apply_operation, hf, hl, if_true]
    · simp only [apply_operation, hf, hl, if_true]
  · intro habs x y width height ox oy fresh
    have hf : gm.widgets.find? (fun x => x.id == i) = none :=
      List.find?_eq_none.mpr (fun a ha => by simpa using habs a ha)
    constructor
    · simp only [apply_operation, hf]
    · simp only [apply_operation, hf]

/-- Witness for C9 at a concrete input: a single locked clock widget with id
"a" on a 24×12 grid; moving or resizing it fails with `Locked` and leaves the
manager unchanged, and targeting the absent id "b" fails with `UnknownId`. -/
theorem move_resize_locked_and_unknown_id_witness :
    (apply_operation gmLock (.moveWidget "a" 1 1) "f" = (.error (.locked "a"), gmLock) ∧
     apply_operation gmLock (.resizeWidget "a" 4 2 none none) "f" =
       (.error (.locked "a"), gmLock)) ∧
    (apply_operation gmLock (.moveWidget "b" 1 1) "f" = (.error (.unknownId "b"), gmLock) ∧
     apply_operation gmLock (.resizeWidget "b" 4 2 none none) "f" =
       (.error (.unknownId "b"), gmLock)) := by
  constructor
  · exact (move_resize_locked_and_unknown_id gmLock "a" (by decide)).1
      wLock (by simp [gmLock]) rfl rfl 1 1 4 2 none none "f"
  · exact (move_resize_locked_and_unknown_id gmLock "b" (by decide)).2
      (by intro w hw; simp [gmLock] at hw; subst hw; decide) 1 1 4 2 none none "f"

/-- Claim C10: on a grid already containing a widget with id `i` (locked or
not), an `AddWidget` whose slot carries id `i` and passes validation succeeds
(no `Locked` error is possible on this path), replaces every stored widget
with that id in place, and keeps the widget count unchanged. -/
theorem addwidget_upserts_existing_id
    (gm : GridManager) (t : String) (slot : WidgetSlot) (i fresh : String)
    (hid : slot.id = some i)
    (hmem : ∃ w, w ∈ gm.widgets ∧ w.id = i)
    (hval : validate_with gm gm.widgets
      (apply_widget_defaults (add_candidate t slot fresh)) = .ok ()) :
    apply_operation gm (.addWidget t slot) fresh =
      (.ok ⟨gm.grid,
            gm.widgets.map (fun e =>
              if e.id = i then apply_widget_defaults (add_candidate t slot fresh) else e),
            gm.version⟩,
       { gm with
          widgets := gm.widgets.map (fun e =>
            if e.id = i then apply_widget_defaults (add_candidate t slot fresh) else e),
          last_valid := gm.widgets.map (fun e =>
            if e.id = i then apply_widget_defaults (add_candidate t slot fresh) else e) }) ∧
    (gm.widgets.map (fun e =>
        if e.id = i then apply_widget_defaults (add_candidate t slot fresh) else e)).length
      = gm.widgets.length := by
  obtain ⟨w0, hw0, hw0i⟩ := hmem
  have hwid : (apply_widget_defaults (add_candidate t slot fresh)).id = i := by
    rw [apply_widget_defaults_id]
    simp [add_candidate, hid]
  have hany : gm.widgets.any (fun e => e.id == i) = true :=
    List.any_eq_true.mpr ⟨w0, hw0, by simp [hw0i]⟩
  refine ⟨?_, List.length_map _ _⟩
  simp only [apply_operation, upsert_widget, hval, upsertList_eq, hany, if_true,
    finishOp, GridManager.state, hwid]

/-- Witness for C10 at a concrete input: `gmLock` holds the locked widget
`wLock` with id "a"; adding `slotUpsert` (same id "a", valid 4×2 geometry)
succeeds, replaces it in place, and keeps exactly one widget. -/
theorem addwidget_upserts_existing_id_witness :
    apply_operation gmLock (.addWidget "clock" slotUpsert) "f" =
      (.ok ⟨gmLock.grid,
            gmLock.widgets.map (fun e =>
              if e.id = "a" then apply_widget_defaults (add_candidate "clock" slotUpsert "f") else e),
            gmLock.version⟩,
       { gmLock with
          widgets := gmLock.widgets.map (fun e =>
            if e.id = "a" then apply_widget_defaults (add_candidate "clock" slotUpsert "f") else e),
          last_valid := gmLock.widgets.map (fun e =>
            if e.id = "a" then apply_widget_defaults (add_candidate "clock" slotUpsert "f") else e) }) ∧
    (gmLock.widgets.map (fun e =>
        if e.id = "a" then apply_widget_defaults (add_candidate "clock" slotUpsert "f") else e)).length
      = gmLock.widgets.length :=
  addwidget_upserts_existing_id gmLock "clock" slotUpsert "a" "f" rfl
    ⟨wLock, by simp [gmLock], rfl⟩ rfl

theorem jlookup_cons (k1 : String) (v1 : JsonValue) (t : List (String × JsonValue)) (k : String) :
    jlookup ((k1, v1) :: t) k = if k1 = k then some v1 else jlookup t k := by
  unfold jlookup
  by_cases h : k1 = k
  · subst h
    simp [List.find?]
  · have hb : (k1 == k) = false := by simp [h]
    simp [List.find?, hb, h]

theorem jlookup_nil (k : String) : jlookup [] k = none := rfl

theorem jlookup_eq_none_of_not_mem (m : List (String × JsonValue)) (k : String)
    (h : k ∉ m.map Prod.fst) : jlookup m k = none := by
  unfold jlookup
  rw [List.find?_eq_none.mpr]
  · rfl
  · intro p hp
    simp only [beq_iff_eq]
    intro heq
    exact h (heq ▸ List.mem_map_of_mem Prod.fst hp)

theorem jlookup_mapInsert (b : List (String × JsonValue)) (k0 : String) (v0 : JsonValue) (k : String) :
    jlookup (mapInsert b k0 v0) k = if k0 = k then some v0 else jlookup b k := by
  induction b with
  | nil => by_cases h : k0 = k <;> simp [mapInsert, jlookup_cons, jlookup_nil, h]
  | cons p t ih =>
      obtain ⟨k1, v1⟩ := p
      by_cases h1 : k1 = k0
      · subst h1
        simp only [mapInsert, if_pos rfl]
        by_cases h : k1 = k <;> simp [jlookup_cons, h]
      · simp only [mapInsert, if_neg h1]
        by_cases ha : k1 = k
        · subst ha
          have : ¬ k0 = k1 := fun hk => h1 hk.symm
          simp [jlookup_cons, this]
        · simp [jlookup_cons, ha, ih]

theorem jlookup_insertAll (ov : List (String × JsonValue)) (base : List (String × JsonValue))
    (hov : (ov.map Prod.fst).Nodup) (k : String) :
    jlookup (insertAll base ov) k = (jlookup ov k).or (jlookup base k) := by
  induction ov generalizing base with
  | nil => simp [insertAll, jlookup_nil, Option.or]
  | cons p rest ih =>
      obtain ⟨k0, v0⟩ := p
      simp only [List.map_cons, List.nodup_cons] at hov
      rw [show insertAll base ((k0, v0) :: rest) = insertAll (mapInsert base k0 v0) rest from rfl]
      rw [ih (mapInsert base k0 v0) hov.2, jlookup_cons, jlookup_mapInsert]
      by_cases h : k0 = k
      · subst h
        have hnone : jlookup rest k0 = none := jlookup_eq_none_of_not_mem rest k0 hov.1
        simp [hnone, Option.or]
      · simp [h]

theorem mem_upsert_result (w : WidgetLayout) (l : List WidgetLayout) :
    w ∈ (if (upsertList w l).2 then (upsertList w l).1 else (upsertList w l).1 ++ [w]) := by
  rw [upsertList_eq]
  dsimp only
  by_cases h : l.any (fun e => e.id == w.id) = true
  · simp only [h, if_true]
    obtain ⟨e, he, hbeq⟩ := List.any_eq_true.mp h
    exact List.mem_map.mpr ⟨e, he, by simp [show e.id = w.id from by simpa using hbeq]⟩
  · simp [h]

/-- Claim C6: for an `AddWidget` of type "clock" (which has registered
default settings) that succeeds, the stored widget's settings obey the merge
rules: omission keeps the type defaults; a caller-supplied JSON object
overrides the defaults key by key (non-overridden default keys are kept); a
non-object, non-null caller value fully replaces the defaults. -/
theorem addwidget_clock_settings_merge
    (gm : GridManager) (slot : WidgetSlot) (i fresh : String)
    (hid : slot.id = some i)
    (hok : (apply_operation gm (.addWidget "clock" slot) fresh).1.isOk = true) :
    ∃ w, w ∈ (apply_operation gm (.addWidget "clock" slot) fresh).2.widgets ∧ w.id = i ∧
      (slot.settings = none → w.settings = default_settings_for "clock") ∧
      (∀ ov, slot.settings = some (.obj ov) → (ov.map Prod.fst).Nodup →
        ∃ m, w.settings = some (.obj m) ∧
          ∀ k, jlookup m k = (jlookup ov k).or (jlookup clockDefaultFields k)) ∧
      (∀ v, slot.settings = some v → (∀ fs, v ≠ .obj fs) → v ≠ .null →
        w.settings = some v) := by
  have hwid : (apply_widget_defaults (add_candidate "clock" slot fresh)).id = i := by
    rw [apply_widget_defaults_id]
    simp [add_candidate, hid]
  have hsettings : (apply_widget_defaults (add_candidate "clock" slot fresh)).settings
      = some (merge_settings (.obj clockDefaultFields)
          (match slot.settings with
           | some v => some v
           | none => default_settings_for "clock")) := rfl
  simp only [apply_operation] at hok ⊢
  cases hr : upsert_widget gm (add_candidate "clock" slot fresh) with
  | error e =>
      rw [hr] at hok
      exact Bool.noConfusion hok
  | ok p =>
      simp only [upsert_widget] at hr
      cases hv : validate_with gm gm.widgets
          (apply_widget_defaults (add_candidate "clock" slot fresh)) with
      | error e => rw [hv] at hr; exact absurd hr (by simp)
      | ok u =>
          cases u
          rw [hv] at hr
          refine ⟨apply_widget_defaults (add_candidate "clock" slot fresh), ?_, hwid, ?_, ?_, ?_⟩
          · have hp := congrArg (fun r : Except LayoutError (LayoutState × GridManager) =>
              match r with
              | .ok q => q.2.widgets
              | .error _ => []) hr
            dsimp only at hp
            rw [show (finishOp gm gm.widgets (.ok p)).2.widgets = p.2.widgets from by
              cases p with | mk st gm' => rfl]
            rw [← hp]
            exact mem_upsert_result _ _
          · intro hnone
            rw [hsettings, hnone]
            rfl
          · intro ov hobj hnov
            rw [hsettings, hobj]
            exact ⟨insertAll clockDefaultFields ov, rfl,
              fun k => jlookup_insertAll ov clockDefaultFields hnov k⟩
          · intro v hsome hnobj hnnull
            rw [hsettings, hsome]
            cases v with
            | null => exact absurd rfl hnnull
            | obj fs => exact absurd rfl (hnobj fs)
            | bool b => rfl
            | num n => rfl
            | str s => rfl
            | arr xs => rfl

/-- Witness for C6 at a concrete input: adding a clock widget with id "c1"
and no caller settings to an empty 24×12 grid succeeds, and the stored
settings satisfy the merge cases (here: omission keeps the type defaults). -/
theorem addwidget_clock_settings_merge_witness :
    ∃ w, w ∈ (apply_operation (GridManager.new 24 12 registryNew)
        (.addWidget "clock" slotOmit) "f").2.widgets ∧ w.id = "c1" ∧
      (slotOmit.settings = none → w.settings = default_settings_for "clock") ∧
      (∀ ov, slotOmit.settings = some (.obj ov) → (ov.map Prod.fst).Nodup →
        ∃ m, w.settings = some (.obj m) ∧
          ∀ k, jlookup m k = (jlookup ov k).or (jlookup clockDefaultFields k)) ∧
      (∀ v, slotOmit.settings = some v → (∀ fs, v ≠ .obj fs) → v ≠ .null →
        w.settings = some v) :=
  addwidget_clock_settings_merge (GridManager.new 24 12 registryNew) slotOmit "c1" "f" rfl rfl

/-- Witness for C2 at a concrete input: moving the absent id "zzz" on
`gmLock` fails, and the widget set afterwards equals the one before. -/
theorem apply_operation_error_leaves_widgets_unchanged_witness :
    (apply_operation gmLock (.moveWidget "zzz" 0 0) "f").2.widgets = gmLock.widgets :=
  apply_operation_error_leaves_widgets_unchanged gmLock (.moveWidget "zzz" 0 0) "f"
    (.unknownId "zzz") rfl

end Layout

namespace Persist

/-- Claim C3: `recover_state` is total and implements the terminal-state
machine: `none` resets to the compile-time default (whose version is the
current schema version); a state with no validation warnings is returned
unchanged as `Clean` with an empty report; otherwise the state is sanitized
exactly once and re-validated, giving `Sanitized` with the original warnings
when none remain and `Partial` with the sanitized state and the remaining
warnings otherwise. -/
theorem recover_state_machine :
    (recover_state none = ⟨PersistedState.default, .reset, [.noPreviousState]⟩ ∧
      PersistedState.default.version = CURRENT_VERSION) ∧
    ∀ s : PersistedState,
      (s.validate = [] → recover_state (some s) = ⟨s, .clean, []⟩) ∧
      (s.validate ≠ [] →
        (s.sanitize.validate = [] →
          recover_state (some s) = ⟨s.sanitize, .sanitizedMode, s.validate⟩) ∧
        (s.sanitize.validate ≠ [] →
          recover_state (some s) = ⟨s.sanitize, .partialRecovery, s.sanitize.validate⟩)) := by
  refine ⟨⟨rfl, rfl⟩, fun s => ⟨?_, ?_⟩⟩
  · intro h
    simp [recover_state, h]
  · intro h
    refine ⟨?_, ?_⟩
    · intro h2
      simp [recover_state, h, h2]
    · intro h2
      simp [recover_state, h, h2]

/-- Witness for C3 at concrete inputs: the default state recovers `Clean`
with an empty report, and a state with an oversized grid (columns 1000)
recovers `Sanitized` carrying its original warning list. -/
theorem recover_state_machine_witness :
    recover_state (some PersistedState.default) =
      ⟨PersistedState.default, .clean, []⟩ ∧
    recover_state (some sBad) = ⟨sBad.sanitize, .sanitizedMode, sBad.validate⟩ := by
  constructor
  · exact (recover_state_machine.2 PersistedState.default).1 rfl
  · exact ((recover_state_machine.2 sBad).2 (by decide)).1 rfl

end Persist

namespace Persist

theorem retainFirstById_sublist (seen : List String) (l : List WidgetLayout) :
    (retainFirstById seen l).Sublist l := by
  induction l generalizing seen with
  | nil => simp [retainFirstById]
  | cons w ws ih =>
      unfold retainFirstById
      by_cases h : w.id ∈ seen
      · simp only [if_pos h]
        exact (ih seen).trans (List.sublist_cons_self w ws)
      · simp only [if_neg h]
        exact (ih (w.id :: seen)).cons₂ w

theorem retainFirstById_mem_not_seen (seen : List String) (l : List WidgetLayout) :
    ∀ w ∈ retainFirstById seen l, w.id ∉ seen := by
  induction l generalizing seen with
  | nil => intro w hw; simp [retainFirstById] at hw
  | cons a t ih =>
      unfold retainFirstById
      by_cases h : a.id ∈ seen
      · simp only [if_pos h]
        exact ih seen
      · simp only [if_neg h]
        intro w hw
        rcases List.mem_cons.mp hw with hwa | hw'
        · subst hwa; exact h
        · intro hmem
          exact ih (a.id :: seen) w hw' (List.mem_cons_of_mem _ hmem)

theorem retainFirstById_ids_nodup (seen : List String) (l : List WidgetLayout) :
    ((retainFirstById seen l).map (fun w => w.id)).Nodup := by
  induction l generalizing seen with
  | nil => simp [retainFirstById]
  | cons a t ih =>
      unfold retainFirstById
      by_cases h : a.id ∈ seen
      · simp only [if_pos h]
        exact ih seen
      · simp only [if_neg h, List.map_cons, List.nodup_cons]
        refine ⟨?_, ih (a.id :: seen)⟩
        intro hmem
        obtain ⟨w, hw, hwid⟩ := List.mem_map.mp hmem
        exact retainFirstById_mem_not_seen _ _ w hw (hwid ▸ List.mem_cons_self _ _)

theorem find?_id_cons_pos (a : WidgetLayout) (t : List WidgetLayout) (k : String)
    (h : (a.id == k) = true) :
    (a :: t).find? (fun w => w.id == k) = some a := by
  simp [List.find?, h]

theorem find?_id_cons_neg (a : WidgetLayout) (t : List WidgetLayout) (k : String)
    (h : (a.id == k) = false) :
    (a :: t).find? (fun w => w.id == k) = t.find? (fun w => w.id == k) := by
  simp [List.find?, h]

theorem retainFirstById_find? (l : List WidgetLayout) (seen : List String) (k : String)
    (hk : k ∉ seen) :
    (retainFirstById seen l).find? (fun w => w.id == k) = l.find? (fun w => w.id == k) := by
  induction l generalizing seen with
  | nil => simp [retainFirstById]
  | cons a t ih =>
      unfold retainFirstById
      by_cases h : a.id ∈ seen
      · have hne : (a.id == k) = false := by
          simp only [beq_eq_false_iff_ne, ne_eq]
          intro he
          exact hk (he ▸ h)
        simp only [if_pos h]
        rw [ih seen hk, find?_id_cons_neg a t k hne]
      · simp only [if_neg h]
        by_cases hak : (a.id == k) = true
        · rw [find?_id_cons_pos a _ k hak, find?_id_cons_pos a t k hak]
        · have hak' : (a.id == k) = false := by
            cases hb : (a.id == k) with
            | true => exact absurd hb hak
            | false => rfl
          rw [find?_id_cons_neg a _ k hak', find?_id_cons_neg a t k hak']
          refine ih (a.id :: seen) ?_
          intro hkmem
          rcases List.mem_cons.mp hkmem with hka | hks
          · exact hak (by simp [hka])
          · exact hk hks

theorem retainFirstById_eq_self (l : List WidgetLayout) (seen : List String)
    (hdisj : ∀ w ∈ l, w.id ∉ seen) (h : (l.map (fun w => w.id)).Nodup) :
    retainFirstById seen l = l := by
  induction l generalizing seen with
  | nil => rfl
  | cons a t ih =>
      simp only [List.map_cons, List.nodup_cons] at h
      unfold retainFirstById
      rw [if_neg (hdisj a (List.mem_cons_self a t))]
      congr 1
      refine ih (a.id :: seen) ?_ h.2
      intro w hw hmem
      rcases List.mem_cons.mp hmem with hwa | hws
      · exact h.1 (hwa ▸ List.mem_map_of_mem (fun w => w.id) hw)
      · exact hdisj w (List.mem_cons_of_mem a hw) hws

theorem clampNat_eq_max_min (v lo hi : Nat) (h : lo ≤ hi) :
    clampNat v lo hi = max lo (min hi v) := by
  unfold clampNat
  rcases Nat.lt_or_ge v lo with h1 | h1
  · rw [if_pos h1, min_eq_right (le_trans (Nat.le_of_lt h1) h), max_eq_left (Nat.le_of_lt h1)]
  · rw [if_neg (Nat.not_lt.mpr h1)]
    rcases Nat.lt_or_ge hi v with h2 | h2
    · rw [if_pos h2, min_eq_left (Nat.le_of_lt h2), max_eq_right h]
    · rw [if_neg (Nat.not_lt.mpr h2), min_eq_right h2, max_eq_right h1]

theorem clampNat_idem (v lo hi : Nat) (h : lo ≤ hi) :
    clampNat (clampNat v lo hi) lo hi = clampNat v lo hi := by
  unfold clampNat
  rcases Nat.lt_or_ge v lo with h1 | h1
  · rw [if_pos h1, if_neg (lt_irrefl lo), if_neg (by omega)]
  · rw [if_neg (Nat.not_lt.mpr h1)]
    rcases Nat.lt_or_ge hi v with h2 | h2
    · rw [if_pos h2, if_neg (by omega), if_neg (by omega)]
    · rw [if_neg (Nat.not_lt.mpr h2), if_neg (Nat.not_lt.mpr h1), if_neg (Nat.not_lt.mpr h2)]

theorem sanitize_widgets_eq (s : PersistedState) :
    (s.sanitize).layout.widgets =
      retainFirstById []
        (s.layout.widgets.filter
          (keepWidget (clampNat s.layout.grid.columns 6 100)
                      (clampNat s.layout.grid.rows 4 100))) := rfl

theorem sanitize_mem_keep (s : PersistedState) :
    ∀ w ∈ (s.sanitize).layout.widgets,
      keepWidget (clampNat s.layout.grid.columns 6 100)
                 (clampNat s.layout.grid.rows 4 100) w = true := by
  intro w hw
  rw [sanitize_widgets_eq] at hw
  have hw' := (retainFirstById_sublist _ _).subset hw
  exact (List.mem_filter.mp hw').2

end Persist

namespace Persist

/-- Counterexample for claim C4 as stated: the widget `wOverflow` has
`x + width = 2^32 + 3`, which exceeds the clamped column count 24 in exact
integer arithmetic (and has positive width/height), yet `sanitize` keeps it,
because the `u32` sum in the retain predicate wraps to 3. -/
theorem sanitize_keeps_overflowing_widget :
    (sOverflow.sanitize).layout.widgets = [wOverflow] ∧
    wOverflow.x + wOverflow.width > (sOverflow.sanitize).layout.grid.columns ∧
    0 < wOverflow.width ∧ 0 < wOverflow.height := by
  exact ⟨rfl, by decide, by decide, by decide⟩

/-- Claim C4 (amended: the bound comparisons are the code's wrapping 32-bit
sums): `sanitize` clamps columns to [6,100], rows to [4,100] and the refresh
interval to [1000,60000]; the surviving widgets are a sublist of the original
ones (no invention, no reordering); every survivor has positive width and
height and fits the clamped grid under wrapping 32-bit sums; surviving ids
are unique; and for each id the survivor is the first widget with that id
that passes the bounds/size retain predicate. -/
theorem sanitize_spec (s : PersistedState) :
    (s.sanitize).layout.grid.columns = max 6 (min 100 s.layout.grid.columns) ∧
    (s.sanitize).layout.grid.rows = max 4 (min 100 s.layout.grid.rows) ∧
    (s.sanitize).preferences.refresh_interval
      = max 1000 (min 60000 s.preferences.refresh_interval) ∧
    (s.sanitize).layout.widgets.Sublist s.layout.widgets ∧
    (∀ w ∈ (s.sanitize).layout.widgets,
      0 < w.width ∧ 0 < w.height ∧
      (w.x + w.width) % 4294967296 ≤ (s.sanitize).layout.grid.columns ∧
      (w.y + w.height) % 4294967296 ≤ (s.sanitize).layout.grid.rows) ∧
    ((s.sanitize).layout.widgets.map (fun w => w.id)).Nodup ∧
    (∀ k, (s.sanitize).layout.widgets.find? (fun w => w.id == k)
        = (s.layout.widgets.filter
            (keepWidget (clampNat s.layout.grid.columns 6 100)
                        (clampNat s.layout.grid.rows 4 100))).find?
            (fun w => w.id == k)) := by
  refine ⟨clampNat_eq_max_min _ 6 100 (by omega),
          clampNat_eq_max_min _ 4 100 (by omega),
          clampNat_eq_max_min _ 1000 60000 (by omega), ?_, ?_, ?_, ?_⟩
  · rw [sanitize_widgets_eq]
    exact (retainFirstById_sublist _ _).trans (List.filter_sublist _)
  · intro w hw
    have hk := sanitize_mem_keep s w hw
    unfold keepWidget at hk
    simp only [Bool.and_eq_true, decide_eq_true_eq] at hk
    exact ⟨hk.1.1.1, hk.1.1.2, hk.1.2, hk.2⟩
  · rw [sanitize_widgets_eq]
    exact retainFirstById_ids_nodup _ _
  · intro k
    rw [sanitize_widgets_eq]
    exact retainFirstById_find? _ [] k (by simp)

/-- Witness for C4 at a concrete input: `sDup` holds two widgets with id "k"
and one zero-width widget on a 24×12 grid; after sanitization the grid is
unchanged, the first "k" widget survives and satisfies the bounds, ids are
unique, and the id "k" resolves to the first passing occurrence. -/
theorem sanitize_spec_witness :
    (sDup.sanitize).layout.grid.columns = 24 ∧
    (0 < wK1.width ∧ 0 < wK1.height ∧
      (wK1.x + wK1.width) % 4294967296 ≤ (sDup.sanitize).layout.grid.columns ∧
      (wK1.y + wK1.height) % 4294967296 ≤ (sDup.sanitize).layout.grid.rows) ∧
    ((sDup.sanitize).layout.widgets.map (fun w => w.id)).Nodup ∧
    (sDup.sanitize).layout.widgets.find? (fun w => w.id == "k")
      = (sDup.layout.widgets.filter
          (keepWidget (clampNat sDup.layout.grid.columns 6 100)
                      (clampNat sDup.layout.grid.rows 4 100))).find?
          (fun w => w.id == "k") := by
  obtain ⟨h1, h2, h3, h4, h5, h6, h7⟩ := sanitize_spec sDup
  exact ⟨by rw [h1]; decide, h5 wK1 (List.Mem.head _), h6, h7 "k"⟩

/-- Claim C7: sanitization is idempotent — sanitizing twice yields the same
state as sanitizing once, for every persisted state. -/
theorem sanitize_idempotent (s : PersistedState) :
    s.sanitize.sanitize = s.sanitize := by
  have hc : clampNat (s.sanitize).layout.grid.columns 6 100
      = (s.sanitize).layout.grid.columns := clampNat_idem _ 6 100 (by omega)
  have hr : clampNat (s.sanitize).layout.grid.rows 4 100
      = (s.sanitize).layout.grid.rows := clampNat_idem _ 4 100 (by omega)
  have hri : clampNat (s.sanitize).preferences.refresh_interval 1000 60000
      = (s.sanitize).preferences.refresh_interval :=
    clampNat_idem _ 1000 60000 (by omega)
  have hfilter : (s.sanitize).layout.widgets.filter
      (keepWidget ((s.sanitize).layout.grid.columns) ((s.sanitize).layout.grid.rows))
      = (s.sanitize).layout.widgets := by
    refine List.filter_eq_self.mpr ?_
    intro w hw
    exact sanitize_mem_keep s w hw
  have hdedup : retainFirstById [] ((s.sanitize).layout.widgets)
      = (s.sanitize).layout.widgets := by
    refine retainFirstById_eq_self _ [] (fun w _ => by simp) ?_
    rw [sanitize_widgets_eq]
    exact retainFirstById_ids_nodup _ _
  have hmk : s.sanitize.sanitize = PersistedState.mk
      (s.sanitize).version (s.sanitize).app_settings
      ⟨⟨clampNat (s.sanitize).layout.grid.columns 6 100,
        clampNat (s.sanitize).layout.grid.rows 4 100⟩,
        retainFirstById []
          ((s.sanitize).layout.widgets.filter
            (keepWidget (clampNat (s.sanitize).layout.grid.columns 6 100)
                        (clampNat (s.sanitize).layout.grid.rows 4 100)))⟩
      ⟨(s.sanitize).preferences.theme, (s.sanitize).preferences.power_saving,
        clampNat (s.sanitize).preferences.refresh_interval 1000 60000,
        (s.sanitize).preferences.widget_visibility,
        (s.sanitize).preferences.widget_scale,
        (s.sanitize).preferences.widget_order,
        (s.sanitize).preferences.alert_rules,
        (s.sanitize).preferences.notes⟩ := rfl
  rw [hmk, hc, hr, hri, hfilter, hdedup]

end Persist

namespace Persist

/-- Counterexample for claim C5 as stated: on-disk version 0 is below the
configured `MIN_SUPPORTED_VERSION = 1`, yet `check_compatibility` classifies
it as `MigrationAvailable` (difference 1), not `Incompatible` — the minimum
supported version is never consulted by the classification. -/
theorem check_compatibility_ignores_min_supported :
    check_compatibility 0 = .migrationAvailable ∧
    0 < MIN_SUPPORTED_VERSION ∧
    CompatibilityStatus.migrationAvailable ≠ .incompatible := by
  decide

/-- Claim C5 (amended: the minimum-supported clause is dropped — the
classification depends only on the version difference and never consults
`MIN_SUPPORTED_VERSION`): equal versions are `FullyCompatible`, a deficit in
[1,2] is `MigrationAvailable`, in [3,5] `MigrationRisky`, above 5
`Incompatible`, and an on-disk version above the current one is
`FutureVersion`; the source's one-argument classifier is the instantiation at
`CURRENT_VERSION`.  The classifier is a pure function of its arguments, so it
mutates nothing. -/
theorem check_compatibility_classification :
    (∀ current v, v = current →
      check_compatibility_gen current v = .fullyCompatible) ∧
    (∀ current v, v < current → 1 ≤ current - v → current - v ≤ 2 →
      check_compatibility_gen current v = .migrationAvailable) ∧
    (∀ current v, 3 ≤ current - v → current - v ≤ 5 →
      check_compatibility_gen current v = .migrationRisky) ∧
    (∀ current v, 5 < current - v →
      check_compatibility_gen current v = .incompatible) ∧
    (∀ current v, current < v →
      check_compatibility_gen current v = .futureVersion) ∧
    (∀ v, check_compatibility v = check_compatibility_gen CURRENT_VERSION v) := by
  refine ⟨?_, ?_, ?_, ?_, ?_, fun v => rfl⟩
  · intro current v h
    subst h
    simp [check_compatibility_gen]
  · intro current v h1 h2 h3
    unfold check_compatibility_gen
    rw [if_neg (by omega)]
    dsimp only
    rw [if_neg (by omega), if_pos h3]
  · intro current v h1 h2
    unfold check_compatibility_gen
    rw [if_neg (by omega)]
    dsimp only
    rw [if_neg (by omega), if_neg (by omega), if_pos h2]
  · intro current v h1
    unfold check_compatibility_gen
    rw [if_neg (by omega)]
    dsimp only
    rw [if_neg (by omega), if_neg (by omega), if_neg (by omega)]
  · intro current v h
    unfold check_compatibility_gen
    rw [if_pos h]

/-- Witness for C5 at concrete inputs (current version 10): versions 10, 8,
5, 2 and 11 hit the five classes in order; and the one-argument classifier
agrees with the generalized one at version 0. -/
theorem check_compatibility_classification_witness :
    check_compatibility_gen 10 10 = .fullyCompatible ∧
    check_compatibility_gen 10 8 = .migrationAvailable ∧
    check_compatibility_gen 10 5 = .migrationRisky ∧
    check_compatibility_gen 10 2 = .incompatible ∧
    check_compatibility_gen 10 11 = .futureVersion ∧
    check_compatibility 0 = check_compatibility_gen CURRENT_VERSION 0 := by
  obtain ⟨h1, h2, h3, h4, h5, h6⟩ := check_compatibility_classification
  exact ⟨h1 10 10 rfl, h2 10 8 (by decide) (by decide) (by decide),
    h3 10 5 (by decide) (by decide), h4 10 2 (by decide), h5 10 11 (by decide), h6 0⟩

/-- Claim C8: `apply_migrations` returns the input unchanged when its version
equals or exceeds the current schema version (future versions are not
rewritten); it errors exactly when the compatibility classification is
`Incompatible`; in every other case it succeeds with the version stamped to
the current schema version. -/
theorem apply_migrations_spec (s : PersistedState) :
    (s.version = CURRENT_VERSION → apply_migrations s = .ok s) ∧
    (s.version > CURRENT_VERSION → apply_migrations s = .ok s) ∧
    ((∃ e, apply_migrations s = .error e) ↔
      check_compatibility s.version = .incompatible) ∧
    (s.version ≠ CURRENT_VERSION → ¬ s.version > CURRENT_VERSION →
      check_compatibility s.version ≠ .incompatible →
      apply_migrations s = .ok { s with version := CURRENT_VERSION }) := by
  have hfut : s.version > CURRENT_VERSION →
      check_compatibility s.version = .futureVersion := by
    intro h
    unfold check_compatibility check_compatibility_gen
    rw [if_pos h]
  have hnotinc : check_compatibility s.version ≠ .incompatible := by
    by_cases hgt : s.version > CURRENT_VERSION
    · rw [hfut hgt]
      decide
    · by_cases heq : s.version = CURRENT_VERSION
      · have hcc : check_compatibility s.version = .fullyCompatible := by
          rw [heq]
          decide
        rw [hcc]
        decide
      · have hv0 : s.version = 0 := by
          have a : ¬ s.version > 1 := hgt
          have b : s.version ≠ 1 := heq
          omega
        have hcc : check_compatibility s.version = .migrationAvailable := by
          rw [hv0]
          decide
        rw [hcc]
        decide
  have hok : ∃ s', apply_migrations s = .ok s' := by
    unfold apply_migrations
    by_cases hv : s.version = CURRENT_VERSION
    · rw [if_pos hv]
      exact ⟨s, rfl⟩
    · rw [if_neg hv]
      cases hcc : check_compatibility s.version with
      | fullyCompatible => exact ⟨s, rfl⟩
      | futureVersion => exact ⟨s, rfl⟩
      | incompatible => exact absurd hcc hnotinc
      | migrationRisky => exact ⟨_, rfl⟩
      | migrationAvailable => exact ⟨_, rfl⟩
  refine ⟨?_, ?_, ?_, ?_⟩
  · intro h
    unfold apply_migrations
    rw [if_pos h]
  · intro h
    have hne : s.version ≠ CURRENT_VERSION := by omega
    unfold apply_migrations
    rw [if_neg hne, hfut h]
  · constructor
    · rintro ⟨e, he⟩
      obtain ⟨s', hs'⟩ := hok
      rw [he] at hs'
      exact absurd hs' (by simp)
    · intro h
      exact absurd h hnotinc
  · intro h1 h2 _
    have hv0 : s.version = 0 := by
      have a : ¬ s.version > 1 := h2
      have b : s.version ≠ 1 := h1
      omega
    have hcc : check_compatibility s.version = .migrationAvailable := by
      rw [hv0]
      decide
    unfold apply_migrations
    rw [if_neg h1, hcc]

/-- Witness for C8 at concrete inputs: the default state (version 1) passes
through unchanged; version 11 (future) passes through unchanged; version 0
migrates to a state stamped with version 1. -/
theorem apply_migrations_spec_witness :
    apply_migrations PersistedState.default = .ok PersistedState.default ∧
    apply_migrations sV11 = .ok sV11 ∧
    apply_migrations sV0 = .ok { sV0 with version := CURRENT_VERSION } := by
  refine ⟨(apply_migrations_spec PersistedState.default).1 rfl,
    (apply_migrations_spec sV11).2.1 (by decide), ?_⟩
  exact (apply_migrations_spec sV0).2.2.2 (by decide) (by decide) (by decide)

end Persist
